import Mathlib

/-!
Verification of the image-comparison core of `fake-image-detection-tool`
(`src/app/comparison.py`) against its specification.

The embedding works over exact rationals (`ℚ`) in place of IEEE doubles;
images are pixel buffers with explicit dimensions, a color mode, and an
optional format tag, as produced by the decoding collaborator described in
the spec.  External library calls (PIL resize, the skimage SSIM routine,
Python float formatting) are modelled as noted at each definition.
-/

namespace FakeImg

/-- Color mode of a raster image, following the spec's design note 9:
a closed tagged variant (RGB, grayscale `L`, other). -/
inductive ImgMode
  | RGB
  | L
  | other (tag : String)
  deriving DecidableEq

/-- A decoded raster image as consumed by the core: dimensions, mode,
optional source-format tag, EXIF-presence flag and the pixel buffer.
The buffer gives, per coordinate, the three channel values (for mode `L`
the decoder stores the gray value replicated across the channels; the
analyzer reads only channel 0 in that case). -/
structure RasterImage where
  width : ℕ
  height : ℕ
  mode : ImgMode
  fmt : Option String
  hasExif : Bool
  px : ℕ → ℕ → Fin 3 → ℚ

/-- Python exception values relevant to `comparison.py`: `ValueError`
(the spec's `InvalidInput`), `RuntimeError` (the spec's `RuntimeFailure`)
and the attribute error raised when a non-image argument is dereferenced. -/
inductive PyErr
  | valueError (msg : String)
  | runtimeError (msg : String)
  | attributeError (msg : String)
  deriving DecidableEq

/-- The message carried by an exception, as `str(e)` reads it. -/
def PyErr.msg : PyErr → String
  | .valueError m => m
  | .runtimeError m => m
  | .attributeError m => m

/-- Modelled from the spec: PIL's `Image.resize(target, LANCZOS)` is an
external library routine.  The spec (4.1) requires a band-limited filter;
any such filter returns an image of exactly the requested dimensions,
keeps the color mode, and — because its weights are normalized to sum
to one — maps a constant image to the same constant image.  We model the
resampler as an arbitrary function with exactly these properties. -/
structure ResizeFn where
  fn : RasterImage → ℕ → ℕ → RasterImage
  width_eq : ∀ img tw th, (fn img tw th).width = tw
  height_eq : ∀ img tw th, (fn img tw th).height = th
  mode_eq : ∀ img tw th, (fn img tw th).mode = img.mode
  const_eq : ∀ img tw th (c : Fin 3 → ℚ), (∀ x y ch, img.px x y ch = c ch) →
    ∀ x y ch, (fn img tw th).px x y ch = c ch

/-- An image is uniform with per-channel constant `c`. -/
def Uniform (img : RasterImage) (c : Fin 3 → ℚ) : Prop :=
  ∀ x y ch, img.px x y ch = c ch

/-- `img.convert('RGB')` when the mode is not already RGB
(comparison.py lines 48-51): the pixel buffer already carries the
channel data (gray replicated for `L`), so conversion retags the mode. -/
def convertRGB (img : RasterImage) : RasterImage :=
  if img.mode = ImgMode.RGB then img else { img with mode := ImgMode.RGB }

/-- Minimum image dimensions for reliable comparison (`MIN_IMAGE_SIZE`). -/
def minImageSize : ℕ × ℕ := (32, 32)

/-- Shared target size (comparison.py line 60 and line 159):
`(min(img1.width, img2.width), min(img1.height, img2.height))`. -/
def targetSize (r1 r2 : RasterImage) : ℕ × ℕ :=
  (min r1.width r2.width, min r1.height r2.height)

/-- Luma projection (comparison.py lines 74-82): BT.601 weights
`np.dot(array[..., :3], [0.2989, 0.5870, 0.1140])` applied to the RGB
array of a converted image (always 3-channel after conversion). -/
def toGray (img : RasterImage) : ℕ → ℕ → ℚ := fun x y =>
  img.px x y 0 * (2989 / 10000) + img.px x y 1 * (5870 / 10000) +
    img.px x y 2 * (1140 / 10000)

/-- SSIM window size.  Modelled from the spec (4.3): the source calls the
external skimage routine with its defaults; the spec fixes a 7×7 uniform
window with valid-only boundary handling. -/
def ssimWin : ℕ := 7

/-- SSIM stabilizing constant `C1 = (K1·L)²` with `K1 = 0.01`, `L = 255`. -/
def ssimC1 : ℚ := (255 / 100) ^ 2

/-- SSIM stabilizing constant `C2 = (K2·L)²` with `K2 = 0.03`, `L = 255`. -/
def ssimC2 : ℚ := (765 / 100) ^ 2

/-- Sum of an intensity map over the 7×7 window anchored at `(x, y)`. -/
def wsum (g : ℕ → ℕ → ℚ) (x y : ℕ) : ℚ :=
  ∑ i in Finset.range ssimWin, ∑ j in Finset.range ssimWin, g (x + i) (y + j)

/-- Local window mean. -/
def wmean (g : ℕ → ℕ → ℚ) (x y : ℕ) : ℚ :=
  wsum g x y / ((ssimWin * ssimWin : ℕ) : ℚ)

/-- Modelled from the spec (4.3): the local SSIM value at a window position,
`((2·μ1·μ2 + C1)·(2·σ12 + C2)) / ((μ1² + μ2² + C1)·(σ1² + σ2² + C2))`
with means, variances and covariance taken over the uniform window. -/
def ssimLocal (g1 g2 : ℕ → ℕ → ℚ) (x y : ℕ) : ℚ :=
  let m1 := wmean g1 x y
  let m2 := wmean g2 x y
  let v1 := wmean (fun a b => g1 a b * g1 a b) x y - m1 * m1
  let v2 := wmean (fun a b => g2 a b * g2 a b) x y - m2 * m2
  let cov := wmean (fun a b => g1 a b * g2 a b) x y - m1 * m2
  ((2 * m1 * m2 + ssimC1) * (2 * cov + ssimC2)) /
    ((m1 * m1 + m2 * m2 + ssimC1) * (v1 + v2 + ssimC2))

/-- Modelled from the spec (4.3): the scalar SSIM score of two
equal-dimension intensity maps is the mean of the local SSIM values over
all valid window positions. -/
def ssimScore (g1 g2 : ℕ → ℕ → ℚ) (w h : ℕ) : ℚ :=
  let nx := w - (ssimWin - 1)
  let ny := h - (ssimWin - 1)
  (∑ x in Finset.range nx, ∑ y in Finset.range ny, ssimLocal g1 g2 x y) /
    ((nx * ny : ℕ) : ℚ)

/-- Error message of comparison.py line 41. -/
def msgNotImages : String := "Both inputs must be PIL Image objects"

/-- Error message of comparison.py line 44. -/
def msgBadThreshold : String := "Threshold must be between 0 and 1"

/-- Error message of comparison.py line 55 (the f-string's size payload is
omitted in the model). -/
def msgFirstSmall : String := "First image too small"

/-- Error message of comparison.py line 57. -/
def msgSecondSmall : String := "Second image too small"

/-- Error message of comparison.py line 64. -/
def msgTargetSmall : String := "Images too small after resizing"

/-- The `except Exception` handler of comparison.py lines 94-96: any
exception escaping the `try` block is re-raised as
`RuntimeError("Failed to compare images: " + str(e))`. -/
def wrapRuntime (e : PyErr) : Except PyErr ℚ :=
  Except.error (PyErr.runtimeError ("Failed to compare images: " ++ e.msg))

/-- `compare_images` (comparison.py lines 23-96).
The `isinstance` and threshold checks precede the `try` block and raise
`ValueError` directly; everything raised inside the `try` block — including
the minimum-size `ValueError`s of lines 54-64 — is caught by the handler of
line 94 and re-raised as a `RuntimeError`. -/
def compare_images (R : ResizeFn) (v1 v2 : Option RasterImage)
    (threshold : ℚ) : Except PyErr ℚ :=
  match v1, v2 with
  | some i1, some i2 =>
    if threshold < 0 ∨ 1 < threshold then
      Except.error (PyErr.valueError msgBadThreshold)
    else
      let r1 := convertRGB i1
      let r2 := convertRGB i2
      if r1.width < minImageSize.1 ∨ r1.height < minImageSize.2 then
        wrapRuntime (PyErr.valueError msgFirstSmall)
      else if r2.width < minImageSize.1 ∨ r2.height < minImageSize.2 then
        wrapRuntime (PyErr.valueError msgSecondSmall)
      else
        let tw := (targetSize r1 r2).1
        let th := (targetSize r1 r2).2
        if tw < minImageSize.1 ∨ th < minImageSize.2 then
          wrapRuntime (PyErr.valueError msgTargetSmall)
        else
          let a1 := toGray (R.fn r1 tw th)
          let a2 := toGray (R.fn r2 tw th)
          let s := ssimScore a1 a2 tw th
          Except.ok (max 0 (min 1 s))
  | _, _ => Except.error (PyErr.valueError msgNotImages)

/-- The number of comparison work steps (conversions, resizes, luma
projections, SSIM) `compare_images` performs along each control path,
mirroring `compare_images` clause for clause: both validation failures
raise before the `try` block starts, so no work at all is done there,
while the minimum-size failures happen after the two conversions. -/
def compareWork (_R : ResizeFn) (v1 v2 : Option RasterImage)
    (threshold : ℚ) : ℕ :=
  match v1, v2 with
  | some i1, some i2 =>
    if threshold < 0 ∨ 1 < threshold then 0
    else
      let r1 := convertRGB i1
      let r2 := convertRGB i2
      if r1.width < minImageSize.1 ∨ r1.height < minImageSize.2 then 2
      else if r2.width < minImageSize.1 ∨ r2.height < minImageSize.2 then 2
      else
        let tw := (targetSize r1 r2).1
        let th := (targetSize r1 r2).2
        if tw < minImageSize.1 ∨ th < minImageSize.2 then 2
        else 7
  | _, _ => 0

/-- Round a rational to the nearest integer, ties to even. -/
def roundHalfEven (x : ℚ) : ℤ :=
  let f := ⌊x⌋
  let r := x - (f : ℚ)
  if r < 1 / 2 then f
  else if 1 / 2 < r then f + 1
  else if f % 2 = 0 then f else f + 1

/-- Modelled from the spec: Python's `f"{v:.1f}"` formatting of a
nonnegative float, at rational precision — the value rounded to one
decimal place (nearest, ties to even) and rendered with one digit after
the point. -/
def fmt1 (q : ℚ) : String :=
  let n := (roundHalfEven (q * 10)).toNat
  toString (n / 10) ++ "." ++ toString (n % 10)

/-- `detect_manipulation` (comparison.py lines 99-137): call
`compare_images` with the same threshold, report
`is_manipulated = score < threshold`, and build the message from the
branch-specific confidence; errors from `compare_images` are re-raised
unchanged by the bare `raise` of line 137. -/
def detect_manipulation (R : ResizeFn) (v1 v2 : Option RasterImage)
    (threshold : ℚ) : Except PyErr (Bool × ℚ × String) :=
  match compare_images R v1 v2 threshold with
  | Except.error e => Except.error e
  | Except.ok s =>
    if s < threshold then
      Except.ok (true, s,
        "Manipulation detected (confidence: " ++
          fmt1 ((threshold - s) / threshold * 100) ++ "%)")
    else
      Except.ok (false, s,
        "No manipulation detected (similarity: " ++ fmt1 (s * 100) ++ "%)")

/-- The body of the `try` block of `generate_difference_image`
(comparison.py lines 151-178): convert both inputs to RGB, downscale to
the shared minimum footprint (no minimum-size check is performed here),
take the absolute per-channel difference, amplify by 3, clamp to
`[0, 255]` and quantize to 8 bits.  Dereferencing a non-image argument
(`img1.mode`) raises an `AttributeError`. -/
def gdiBody (R : ResizeFn) (v1 v2 : Option RasterImage) :
    Except PyErr RasterImage :=
  match v1, v2 with
  | some i1, some i2 =>
    let r1 := convertRGB i1
    let r2 := convertRGB i2
    let tw := (targetSize r1 r2).1
    let th := (targetSize r1 r2).2
    let a1 := R.fn r1 tw th
    let a2 := R.fn r2 tw th
    Except.ok
      { width := tw
        height := th
        mode := ImgMode.RGB
        fmt := none
        hasExif := false
        px := fun x y ch =>
          ((⌊max 0 (min 255 (|a1.px x y ch - a2.px x y ch| * 3))⌋ : ℤ) : ℚ) }
  | _, _ =>
    Except.error (PyErr.attributeError "object has no attribute mode")

/-- `generate_difference_image` (comparison.py lines 140-182): the whole
body runs inside `try`; any exception is caught by the handler of
line 180 and turned into `None`. -/
def generate_difference_image (R : ResizeFn) (v1 v2 : Option RasterImage) :
    Option RasterImage :=
  match gdiBody R v1 v2 with
  | Except.ok d => some d
  | Except.error _ => none

/-- The dictionary returned by `analyze_image_properties`, with one
optional slot per key the source can emit. -/
structure PropsDict where
  dimensions : Option (ℕ × ℕ)
  mode : Option ImgMode
  fmt : Option (Option String)
  has_exif : Option Bool
  mean_intensity : Option ℚ
  var_intensity : Option ℚ
  min_intensity : Option ℤ
  max_intensity : Option ℤ
  error : Option String

/-- The error-only dictionary built by the handler of comparison.py
line 217: `{'error': str(e)}`. -/
def errDict (m : String) : PropsDict :=
  { dimensions := none, mode := none, fmt := none, has_exif := none
    mean_intensity := none, var_intensity := none, min_intensity := none
    max_intensity := none, error := some m }

/-- The flat list of array values `np.array(img)` yields for the
statistics of comparison.py lines 204-211: one value per pixel for
mode `L`, three per pixel for RGB. -/
def pxVals (img : RasterImage) : List ℚ :=
  (List.range img.height).flatMap fun y =>
    (List.range img.width).flatMap fun x =>
      if img.mode = ImgMode.L then [img.px x y 0]
      else [img.px x y 0, img.px x y 1, img.px x y 2]

/-- Python's `int(...)` truncation toward zero. -/
def pyTrunc (q : ℚ) : ℤ := if q < 0 then ⌈q⌉ else ⌊q⌋

/-- `analyze_image_properties` (comparison.py lines 185-217): dimensions,
mode, format and EXIF flag always; intensity statistics only for modes
`RGB` and `L`.  `np.std` reports the square root of the variance recorded
here; the model keeps the (rational) variance.  `np.min` on an empty
array raises, which the handler of line 215 turns into an error-only
dictionary; a non-image argument fails at `img.size` the same way. -/
def analyze_image_properties (v : Option RasterImage) : PropsDict :=
  match v with
  | none => errDict "object has no attribute size"
  | some img =>
    let base : PropsDict :=
      { dimensions := some (img.width, img.height), mode := some img.mode
        fmt := some img.fmt, has_exif := some img.hasExif
        mean_intensity := none, var_intensity := none, min_intensity := none
        max_intensity := none, error := none }
    if img.mode = ImgMode.RGB ∨ img.mode = ImgMode.L then
      match pxVals img with
      | [] => errDict "zero-size array to reduction operation minimum"
      | a :: rest =>
        let n : ℚ := ((a :: rest).length : ℕ)
        let m := (a :: rest).sum / n
        { base with
          mean_intensity := some m
          var_intensity := some (((a :: rest).map fun v => (v - m) ^ 2).sum / n)
          min_intensity := some (pyTrunc (rest.foldl min a))
          max_intensity := some (pyTrunc (rest.foldl max a)) }
    else base

/-- A Python float as seen by the clamp of comparison.py line 88:
either a finite value or one of the IEEE special values. -/
inductive PyFloat
  | finite (q : ℚ)
  | nan
  | inf
  | ninf
  deriving DecidableEq

/-- IEEE `<` on Python floats: any comparison involving NaN is false. -/
def pyLt : PyFloat → PyFloat → Bool
  | PyFloat.finite a, PyFloat.finite b => decide (a < b)
  | PyFloat.nan, _ => false
  | _, PyFloat.nan => false
  | PyFloat.ninf, PyFloat.ninf => false
  | PyFloat.ninf, _ => true
  | _, PyFloat.ninf => false
  | PyFloat.inf, _ => false
  | PyFloat.finite _, PyFloat.inf => true

/-- CPython `min(a, b)`: the first argument is the candidate, replaced
only when `b < a`. -/
def pyMin (a b : PyFloat) : PyFloat := if pyLt b a then b else a

/-- CPython `max(a, b)`: the first argument is the candidate, replaced
only when `a < b`. -/
def pyMax (a b : PyFloat) : PyFloat := if pyLt a b then b else a

/-- The clamp of comparison.py line 88 at Python float semantics:
`max(0.0, min(1.0, similarity_score))`. -/
def clampScore (s : PyFloat) : PyFloat :=
  pyMax (PyFloat.finite 0) (pyMin (PyFloat.finite 1) s)

/-- Comparison.py lines 85-92 after the SSIM call returns the float `s`:
the score is clamped and returned; no NaN or infinity check exists on
this path, so no value of `s` raises. -/
def comparePost (s : PyFloat) : Except PyErr PyFloat :=
  Except.ok (clampScore s)

/-- A concrete band-limited-degenerate resampler (point sampling on the
normalized grid), used to instantiate `ResizeFn` in witnesses. -/
def samplePx (img : RasterImage) (tw th : ℕ) : RasterImage :=
  { width := tw, height := th, mode := img.mode, fmt := img.fmt
    hasExif := img.hasExif
    px := fun x y ch => img.px (x * img.width / tw) (y * img.height / th) ch }

/-- The witness resampler bundled with its contract. -/
def nearestResize : ResizeFn :=
  { fn := samplePx
    width_eq := fun _ _ _ => rfl
    height_eq := fun _ _ _ => rfl
    mode_eq := fun _ _ _ => rfl
    const_eq := fun _ _ _ _ hc _ _ _ => hc _ _ _ }

/-- A uniform RGB test image. -/
def uniformImg (w h : ℕ) (c : Fin 3 → ℚ) : RasterImage :=
  { width := w, height := h, mode := ImgMode.RGB, fmt := some "PNG"
    hasExif := false, px := fun _ _ ch => c ch }

/-- The all-black channel constant. -/
def cZero : Fin 3 → ℚ := fun _ => 0

/-- A pair of images passes the normalizer of spec 4.1 (the validation of
comparison.py lines 48-64): after RGB conversion both images meet the
32×32 floor and so does the shared target size. -/
def normalizerAccepts (i1 i2 : RasterImage) : Prop :=
  ¬((convertRGB i1).width < minImageSize.1 ∨
      (convertRGB i1).height < minImageSize.2) ∧
  ¬((convertRGB i2).width < minImageSize.1 ∨
      (convertRGB i2).height < minImageSize.2) ∧
  ¬((targetSize (convertRGB i1) (convertRGB i2)).1 < minImageSize.1 ∨
      (targetSize (convertRGB i1) (convertRGB i2)).2 < minImageSize.2)

/-! ### Basic lemmas about the embedded definitions -/

lemma uniform_width (w h : ℕ) (c : Fin 3 → ℚ) :
    (uniformImg w h c).width = w := rfl

lemma uniform_height (w h : ℕ) (c : Fin 3 → ℚ) :
    (uniformImg w h c).height = h := rfl

lemma convert_uniform (w h : ℕ) (c : Fin 3 → ℚ) :
    convertRGB (uniformImg w h c) = uniformImg w h c := rfl

lemma convert_px (img : RasterImage) : (convertRGB img).px = img.px := by
  unfold convertRGB
  split <;> rfl

lemma convert_width (img : RasterImage) : (convertRGB img).width = img.width := by
  unfold convertRGB
  split <;> rfl

lemma convert_height (img : RasterImage) :
    (convertRGB img).height = img.height := by
  unfold convertRGB
  split <;> rfl

lemma wmean_const (g : ℕ → ℕ → ℚ) (γ : ℚ) (h : ∀ a b, g a b = γ) (x y : ℕ) :
    wmean g x y = γ := by
  simp [wmean, wsum, h, Finset.sum_const, Finset.card_range, ssimWin]
  linarith

lemma ssimLocal_const (g1 g2 : ℕ → ℕ → ℚ) (γ : ℚ) (h1 : ∀ a b, g1 a b = γ)
    (h2 : ∀ a b, g2 a b = γ) (x y : ℕ) : ssimLocal g1 g2 x y = 1 := by
  have e1 := wmean_const g1 γ h1 x y
  have e2 := wmean_const g2 γ h2 x y
  have e11 := wmean_const (fun a b => g1 a b * g1 a b) (γ * γ)
    (fun a b => by simp [h1]) x y
  have e22 := wmean_const (fun a b => g2 a b * g2 a b) (γ * γ)
    (fun a b => by simp [h2]) x y
  have e12 := wmean_const (fun a b => g1 a b * g2 a b) (γ * γ)
    (fun a b => by simp [h1, h2]) x y
  simp only [ssimLocal]
  rw [e1, e2, e11, e22, e12]
  simp only [ssimC1, ssimC2]
  have e0 : γ * γ - γ * γ = 0 := sub_self _
  rw [e0]
  have hpos : (0 : ℚ) <
      (γ * γ + γ * γ + (255 / 100 : ℚ) ^ 2) * (0 + 0 + (765 / 100 : ℚ) ^ 2) :=
    mul_pos (by nlinarith [mul_self_nonneg γ]) (by norm_num)
  rw [div_eq_iff (ne_of_gt hpos)]
  ring

lemma ssimScore_const (g1 g2 : ℕ → ℕ → ℚ) (γ : ℚ) (h1 : ∀ a b, g1 a b = γ)
    (h2 : ∀ a b, g2 a b = γ) (w h : ℕ) (hw : 7 ≤ w) (hh : 7 ≤ h) :
    ssimScore g1 g2 w h = 1 := by
  have hl : ∀ x y : ℕ, ssimLocal g1 g2 x y = 1 :=
    fun x y => ssimLocal_const g1 g2 γ h1 h2 x y
  simp only [ssimScore, hl, Finset.sum_const, Finset.card_range, nsmul_eq_mul,
    mul_one, ssimWin]
  rw [Nat.cast_mul, div_self]
  have hw6 : w - (7 - 1) ≠ 0 := by omega
  have hh6 : h - (7 - 1) ≠ 0 := by omega
  exact mul_ne_zero (Nat.cast_ne_zero.mpr hw6) (Nat.cast_ne_zero.mpr hh6)

lemma grayUniform (R : ResizeFn) (w h tw th : ℕ) (c : Fin 3 → ℚ) (x y : ℕ) :
    toGray (R.fn (uniformImg w h c) tw th) x y =
      c 0 * (2989 / 10000) + c 1 * (5870 / 10000) + c 2 * (1140 / 10000) := by
  have hc := R.const_eq (uniformImg w h c) tw th c (fun _ _ _ => rfl)
  simp [toGray, hc]

lemma compareEval :
    compare_images nearestResize (some (uniformImg 32 32 cZero))
      (some (uniformImg 32 32 cZero)) (98 / 100) = Except.ok 1 := by
  have hww : (uniformImg 32 32 cZero).width = 32 := rfl
  have hhh : (uniformImg 32 32 cZero).height = 32 := rfl
  simp only [compare_images, convert_uniform]
  norm_num [hww, hhh, targetSize, minImageSize]
  have hg : ∀ x y : ℕ,
      toGray (nearestResize.fn (uniformImg 32 32 cZero) 32 32) x y = 0 := by
    intro x y
    rw [grayUniform]
    simp [cZero]
  rw [ssimScore_const _ _ 0 hg hg 32 32 (by norm_num) (by norm_num)]
  norm_num

lemma compareEval2 :
    compare_images nearestResize (some (uniformImg 32 32 cZero))
      (some (uniformImg 48 32 cZero)) (98 / 100) = Except.ok 1 := by
  have hw1 : (uniformImg 32 32 cZero).width = 32 := rfl
  have hh1 : (uniformImg 32 32 cZero).height = 32 := rfl
  have hw2 : (uniformImg 48 32 cZero).width = 48 := rfl
  have hh2 : (uniformImg 48 32 cZero).height = 32 := rfl
  simp only [compare_images, convert_uniform]
  norm_num [hw1, hh1, hw2, hh2, targetSize, minImageSize]
  have hg1 : ∀ x y : ℕ,
      toGray (nearestResize.fn (uniformImg 32 32 cZero) 32 32) x y = 0 := by
    intro x y
    rw [grayUniform]
    simp [cZero]
  have hg2 : ∀ x y : ℕ,
      toGray (nearestResize.fn (uniformImg 48 32 cZero) 32 32) x y = 0 := by
    intro x y
    rw [grayUniform]
    simp [cZero]
  rw [ssimScore_const _ _ 0 hg1 hg2 32 32 (by norm_num) (by norm_num)]
  norm_num

lemma roundHalfEven_1000 : roundHalfEven (100 * 10) = 1000 := by
  unfold roundHalfEven
  norm_num

lemma fmt1_100 : fmt1 (1 * 100) = "100.0" := by
  unfold fmt1
  rw [show ((1 : ℚ) * 100) = 100 by norm_num, roundHalfEven_1000]
  rfl

lemma detectEval :
    detect_manipulation nearestResize (some (uniformImg 32 32 cZero))
      (some (uniformImg 32 32 cZero)) (98 / 100) =
      Except.ok (false, 1, "No manipulation detected (similarity: 100.0%)") := by
  simp only [detect_manipulation, compareEval]
  rw [if_neg (by norm_num)]
  rw [fmt1_100]
  rfl

lemma wsum_mul_comm (g1 g2 : ℕ → ℕ → ℚ) (x y : ℕ) :
    wsum (fun a b => g2 a b * g1 a b) x y =
      wsum (fun a b => g1 a b * g2 a b) x y := by
  unfold wsum
  exact Finset.sum_congr rfl fun i _ =>
    Finset.sum_congr rfl fun j _ => mul_comm _ _

lemma ssimLocal_comm (g1 g2 : ℕ → ℕ → ℚ) (x y : ℕ) :
    ssimLocal g2 g1 x y = ssimLocal g1 g2 x y := by
  simp only [ssimLocal, wmean]
  rw [wsum_mul_comm]
  ring

lemma ssimScore_comm (g1 g2 : ℕ → ℕ → ℚ) (w h : ℕ) :
    ssimScore g2 g1 w h = ssimScore g1 g2 w h := by
  have hs : ∀ x y : ℕ, ssimLocal g2 g1 x y = ssimLocal g1 g2 x y :=
    ssimLocal_comm g1 g2
  simp only [ssimScore, hs]

lemma score_in_range (R : ResizeFn) (v1 v2 : Option RasterImage) (t s : ℚ)
    (h : compare_images R v1 v2 t = Except.ok s) : 0 ≤ s ∧ s ≤ 1 := by
  cases v1 with
  | none => cases v2 <;> simp [compare_images] at h
  | some i1 =>
    cases v2 with
    | none => simp [compare_images] at h
    | some i2 =>
      simp only [compare_images] at h
      split_ifs at h with h1 h2 h3 h4
      all_goals first
        | exact Except.noConfusion h
        | (have hs := Except.ok.inj h
           rw [← hs]
           exact ⟨le_max_left 0 _, max_le (by norm_num) (min_le_left 1 _)⟩)

/-! ### Claim theorems -/

/-- C1 (code bug): the claim — and the function's own docstring — say a
too-small image makes `compare` fail with `ValueError` (`InvalidInput`);
the code instead raises the size-check `ValueError` inside the `try` block,
where the handler of line 94 re-wraps it, so `compare` on a 10×10 pair
fails with `RuntimeError` (`RuntimeFailure`). -/
theorem compare_small_image_raises_runtime_error :
    compare_images nearestResize (some (uniformImg 10 10 cZero))
      (some (uniformImg 10 10 cZero)) (1 / 2) =
      Except.error (PyErr.runtimeError
        ("Failed to compare images: " ++ msgFirstSmall)) := by
  simp [compare_images, convertRGB, uniformImg, minImageSize, wrapRuntime,
    PyErr.msg]
  norm_num

/-- C2: whenever `detect` succeeds with verdict `m`, score `s` and message
`msg` at threshold `t`, the verdict is `s < t`; a manipulated verdict
carries the message "Manipulation detected (confidence: c%)" with
`c = (t − s)/t · 100`, and a clean verdict carries
"No manipulation detected (similarity: c%)" with `c = s · 100`,
both formatted to one decimal place. -/
theorem detect_verdict_confidence_message (R : ResizeFn)
    (v1 v2 : Option RasterImage) (t : ℚ) (m : Bool) (s : ℚ) (msg : String)
    (h : detect_manipulation R v1 v2 t = Except.ok (m, s, msg)) :
    m = decide (s < t) ∧
    (s < t → msg = "Manipulation detected (confidence: " ++
      fmt1 ((t - s) / t * 100) ++ "%)") ∧
    (¬ s < t → msg = "No manipulation detected (similarity: " ++
      fmt1 (s * 100) ++ "%)") := by
  cases hc : compare_images R v1 v2 t with
  | error e =>
    simp only [detect_manipulation, hc] at h
    exact Except.noConfusion h
  | ok s0 =>
    simp only [detect_manipulation, hc] at h
    by_cases hlt : s0 < t
    · rw [if_pos hlt] at h
      have hp := Except.ok.inj h
      simp only [Prod.mk.injEq] at hp
      obtain ⟨hm, hs, hmsg⟩ := hp
      subst hm; subst hs; subst hmsg
      refine ⟨by simp [hlt], fun _ => rfl, fun hn => absurd hlt hn⟩
    · rw [if_neg hlt] at h
      have hp := Except.ok.inj h
      simp only [Prod.mk.injEq] at hp
      obtain ⟨hm, hs, hmsg⟩ := hp
      subst hm; subst hs; subst hmsg
      refine ⟨by simp [hlt], fun hyes => absurd hyes hlt, fun _ => rfl⟩

/-- C2 witness: a successful concrete detection (identical uniform 32×32
images at the default threshold) instantiating the theorem. -/
theorem detect_verdict_confidence_message_witness :
    detect_manipulation nearestResize (some (uniformImg 32 32 cZero))
      (some (uniformImg 32 32 cZero)) (98 / 100) =
      Except.ok (false, 1, "No manipulation detected (similarity: 100.0%)") ∧
    false = decide ((1 : ℚ) < 98 / 100) :=
  ⟨detectEval,
    (detect_verdict_confidence_message nearestResize _ _ _ _ _ _ detectEval).1⟩

/-- C3 counterexample: the claim says a NaN SSIM result makes `compare`
fail with `RuntimeFailure`; in the code the post-SSIM path has no NaN or
infinity check — `max(0.0, min(1.0, nan))` evaluates to `1.0` under
Python's comparison-based `min`/`max`, so NaN is returned as the number
`1.0`, not as a failure. -/
theorem ssim_nan_clamped_to_one_not_failure :
    comparePost PyFloat.nan = Except.ok (PyFloat.finite 1) := rfl

/-- C3 (amended): every successful `compare` result lies in [0, 1], but a
NaN or infinite SSIM value is not detected: NaN and +∞ are silently
clamped to 1.0, −∞ to 0.0, and returned as numbers rather than as
`RuntimeFailure`. -/
theorem compare_clamps_score_but_misses_specials :
    (∀ (R : ResizeFn) (v1 v2 : Option RasterImage) (t s : ℚ),
        compare_images R v1 v2 t = Except.ok s → 0 ≤ s ∧ s ≤ 1) ∧
    comparePost PyFloat.nan = Except.ok (PyFloat.finite 1) ∧
    comparePost PyFloat.inf = Except.ok (PyFloat.finite 1) ∧
    comparePost PyFloat.ninf = Except.ok (PyFloat.finite 0) :=
  ⟨score_in_range, rfl, rfl, rfl⟩

/-- C3 witness: a concrete successful comparison whose score the theorem
bounds to [0, 1]. -/
theorem compare_clamps_score_witness :
    compare_images nearestResize (some (uniformImg 32 32 cZero))
      (some (uniformImg 32 32 cZero)) (98 / 100) = Except.ok 1 ∧
    (0 ≤ (1 : ℚ) ∧ (1 : ℚ) ≤ 1) :=
  ⟨compareEval,
    compare_clamps_score_but_misses_specials.1 nearestResize _ _ _ _ compareEval⟩

/-- C4: for every pair accepted by the normalizer the target size is
exactly (min(width1, width2), min(height1, height2)), and the resized
output dimensions never exceed the corresponding dimension of either
input — no upscaling. -/
theorem normalizer_target_never_upscales (R : ResizeFn) (i1 i2 : RasterImage)
    (_hacc : normalizerAccepts i1 i2) :
    targetSize (convertRGB i1) (convertRGB i2) =
      (min i1.width i2.width, min i1.height i2.height) ∧
    (R.fn (convertRGB i1) (targetSize (convertRGB i1) (convertRGB i2)).1
        (targetSize (convertRGB i1) (convertRGB i2)).2).width ≤ i1.width ∧
    (R.fn (convertRGB i1) (targetSize (convertRGB i1) (convertRGB i2)).1
        (targetSize (convertRGB i1) (convertRGB i2)).2).width ≤ i2.width ∧
    (R.fn (convertRGB i1) (targetSize (convertRGB i1) (convertRGB i2)).1
        (targetSize (convertRGB i1) (convertRGB i2)).2).height ≤ i1.height ∧
    (R.fn (convertRGB i1) (targetSize (convertRGB i1) (convertRGB i2)).1
        (targetSize (convertRGB i1) (convertRGB i2)).2).height ≤ i2.height ∧
    (R.fn (convertRGB i2) (targetSize (convertRGB i1) (convertRGB i2)).1
        (targetSize (convertRGB i1) (convertRGB i2)).2).width ≤ i1.width ∧
    (R.fn (convertRGB i2) (targetSize (convertRGB i1) (convertRGB i2)).1
        (targetSize (convertRGB i1) (convertRGB i2)).2).width ≤ i2.width ∧
    (R.fn (convertRGB i2) (targetSize (convertRGB i1) (convertRGB i2)).1
        (targetSize (convertRGB i1) (convertRGB i2)).2).height ≤ i1.height ∧
    (R.fn (convertRGB i2) (targetSize (convertRGB i1) (convertRGB i2)).1
        (targetSize (convertRGB i1) (convertRGB i2)).2).height ≤ i2.height := by
  have e1 : (targetSize (convertRGB i1) (convertRGB i2)).1 =
      min i1.width i2.width := by
    simp [targetSize, convert_width]
  have e2 : (targetSize (convertRGB i1) (convertRGB i2)).2 =
      min i1.height i2.height := by
    simp [targetSize, convert_height]
  refine ⟨?_, ?_, ?_, ?_, ?_, ?_, ?_, ?_, ?_⟩
  · rw [Prod.ext_iff]
    exact ⟨e1, e2⟩
  · rw [R.width_eq, e1]; exact Nat.min_le_left _ _
  · rw [R.width_eq, e1]; exact Nat.min_le_right _ _
  · rw [R.height_eq, e2]; exact Nat.min_le_left _ _
  · rw [R.height_eq, e2]; exact Nat.min_le_right _ _
  · rw [R.width_eq, e1]; exact Nat.min_le_left _ _
  · rw [R.width_eq, e1]; exact Nat.min_le_right _ _
  · rw [R.height_eq, e2]; exact Nat.min_le_left _ _
  · rw [R.height_eq, e2]; exact Nat.min_le_right _ _

/-- C4 witness: a concrete accepted pair (100×50 and 60×80) whose target
size is (60, 50). -/
theorem normalizer_target_never_upscales_witness :
    normalizerAccepts (uniformImg 100 50 cZero) (uniformImg 60 80 cZero) ∧
    targetSize (convertRGB (uniformImg 100 50 cZero))
      (convertRGB (uniformImg 60 80 cZero)) = (min 100 60, min 50 80) := by
  have hacc : normalizerAccepts (uniformImg 100 50 cZero)
      (uniformImg 60 80 cZero) := by
    have h1 : (uniformImg 100 50 cZero).width = 100 := rfl
    have h2 : (uniformImg 100 50 cZero).height = 50 := rfl
    have h3 : (uniformImg 60 80 cZero).width = 60 := rfl
    have h4 : (uniformImg 60 80 cZero).height = 80 := rfl
    norm_num [normalizerAccepts, convert_uniform, targetSize, minImageSize,
      h1, h2, h3, h4]
  exact ⟨hacc,
    (normalizer_target_never_upscales nearestResize _ _ hacc).1⟩

/-- C5: every out-of-range threshold makes `compare` fail with
`InvalidInput` (`ValueError`) while zero comparison work steps
(conversion, size checks, resizing, SSIM) have been performed. -/
theorem invalid_threshold_fails_before_work (R : ResizeFn)
    (v1 v2 : Option RasterImage) (t : ℚ) (ht : t < 0 ∨ 1 < t) :
    (∃ m, compare_images R v1 v2 t = Except.error (PyErr.valueError m)) ∧
    compareWork R v1 v2 t = 0 := by
  cases v1 with
  | none => cases v2 <;> exact ⟨⟨msgNotImages, rfl⟩, rfl⟩
  | some i1 =>
    cases v2 with
    | none => exact ⟨⟨msgNotImages, rfl⟩, rfl⟩
    | some i2 =>
      constructor
      · refine ⟨msgBadThreshold, ?_⟩
        simp only [compare_images]
        rw [if_pos ht]
      · simp only [compareWork]
        rw [if_pos ht]

/-- C5 witness: threshold 3/2 on a valid pair is rejected with no work. -/
theorem invalid_threshold_fails_before_work_witness :
    ((3 : ℚ) / 2 < 0 ∨ 1 < (3 : ℚ) / 2) ∧
    ((∃ m, compare_images nearestResize (some (uniformImg 32 32 cZero))
        (some (uniformImg 32 32 cZero)) (3 / 2) =
        Except.error (PyErr.valueError m)) ∧
      compareWork nearestResize (some (uniformImg 32 32 cZero))
        (some (uniformImg 32 32 cZero)) (3 / 2) = 0) :=
  ⟨by norm_num,
    invalid_threshold_fails_before_work nearestResize _ _ _ (by norm_num)⟩

/-- C6 counterexample: the claim says `difference` rejects pairs below
32×32 and produces no image; the code performs no minimum-size check, so
a 10×10 pair still yields a difference image. -/
theorem difference_small_pair_produces_image :
    (generate_difference_image nearestResize (some (uniformImg 10 10 cZero))
      (some (uniformImg 10 10 cZero))).isSome = true := rfl

/-- C6 (amended): `difference` normalizes like the 4.1 normalizer only in
its conversion and downscale-to-shared-minimum steps; it performs no
minimum-size check, so every pair of decoded images — including pairs
below 32×32 — produces a difference image with the shared minimum
dimensions rather than the "no result" signal. -/
theorem difference_has_no_minimum_size_check (R : ResizeFn)
    (i1 i2 : RasterImage) :
    ∃ d, generate_difference_image R (some i1) (some i2) = some d ∧
      d.width = min i1.width i2.width ∧ d.height = min i1.height i2.height := by
  refine ⟨_, rfl, ?_, ?_⟩
  · show (targetSize (convertRGB i1) (convertRGB i2)).1 = min i1.width i2.width
    simp [targetSize, convert_width]
  · show (targetSize (convertRGB i1) (convertRGB i2)).2 =
      min i1.height i2.height
    simp [targetSize, convert_height]

/-- C7: `difference` never propagates an error: its result is exactly the
body's result with every failure collapsed to `none` and every success
passed through as `some`. -/
theorem difference_never_propagates_errors (R : ResizeFn)
    (v1 v2 : Option RasterImage) :
    generate_difference_image R v1 v2 = (gdiBody R v1 v2).toOption := by
  unfold generate_difference_image Except.toOption
  cases gdiBody R v1 v2 <;> rfl

/-- C8: two uniform RGB images whose channels differ by a constant offset
of 50 produce a difference image of the downscaled shared dimensions with
every pixel equal to min(255, 50·3) = 150. -/
theorem difference_uniform_offset_amplified (R : ResizeFn)
    (i1 i2 : RasterImage) (c1 c2 : Fin 3 → ℚ)
    (_hm1 : i1.mode = ImgMode.RGB) (_hm2 : i2.mode = ImgMode.RGB)
    (hu1 : Uniform i1 c1) (hu2 : Uniform i2 c2)
    (hoff : ∀ ch, |c1 ch - c2 ch| = 50) :
    ∃ d, generate_difference_image R (some i1) (some i2) = some d ∧
      d.width = min i1.width i2.width ∧ d.height = min i1.height i2.height ∧
      ∀ x y ch, d.px x y ch = 150 := by
  refine ⟨_, rfl, ?_, ?_, ?_⟩
  · show (targetSize (convertRGB i1) (convertRGB i2)).1 = min i1.width i2.width
    simp [targetSize, convert_width]
  · show (targetSize (convertRGB i1) (convertRGB i2)).2 =
      min i1.height i2.height
    simp [targetSize, convert_height]
  · intro x y ch
    have hpx1 : ∀ a b c, (convertRGB i1).px a b c = c1 c := by
      intro a b c
      rw [convert_px]
      exact hu1 a b c
    have hpx2 : ∀ a b c, (convertRGB i2).px a b c = c2 c := by
      intro a b c
      rw [convert_px]
      exact hu2 a b c
    have ha1 := R.const_eq (convertRGB i1)
      (targetSize (convertRGB i1) (convertRGB i2)).1
      (targetSize (convertRGB i1) (convertRGB i2)).2 c1 hpx1
    have ha2 := R.const_eq (convertRGB i2)
      (targetSize (convertRGB i1) (convertRGB i2)).1
      (targetSize (convertRGB i1) (convertRGB i2)).2 c2 hpx2
    show ((⌊max 0 (min 255 (|(R.fn (convertRGB i1)
        (targetSize (convertRGB i1) (convertRGB i2)).1
        (targetSize (convertRGB i1) (convertRGB i2)).2).px x y ch -
      (R.fn (convertRGB i2)
        (targetSize (convertRGB i1) (convertRGB i2)).1
        (targetSize (convertRGB i1) (convertRGB i2)).2).px x y ch| * 3))⌋ :
        ℤ) : ℚ) = 150
    rw [ha1 x y ch, ha2 x y ch, hoff ch]
    norm_num

/-- C8 witness: uniform gray 100 (40×40) against uniform gray 150 (48×36)
yields a 40×36 difference image that is everywhere 150. -/
theorem difference_uniform_offset_amplified_witness :
    ∃ d, generate_difference_image nearestResize
        (some (uniformImg 40 40 (fun _ => 100)))
        (some (uniformImg 48 36 (fun _ => 150))) = some d ∧
      d.width = min 40 48 ∧ d.height = min 40 36 ∧
      ∀ x y ch, d.px x y ch = 150 :=
  difference_uniform_offset_amplified nearestResize
    (uniformImg 40 40 (fun _ => 100)) (uniformImg 48 36 (fun _ => 150))
    (fun _ => 100) (fun _ => 150) rfl rfl (fun _ _ _ => rfl) (fun _ _ _ => rfl)
    (fun _ => by norm_num)

/-- C10: `compare` is symmetric in its two image arguments on every
successful run — the target size, luma projection and local SSIM formula
are invariant under swapping the inputs. -/
theorem compare_symmetric_on_success (R : ResizeFn)
    (v1 v2 : Option RasterImage) (t s : ℚ)
    (h : compare_images R v1 v2 t = Except.ok s) :
    compare_images R v2 v1 t = Except.ok s := by
  cases v1 with
  | none => cases v2 <;> simp [compare_images] at h
  | some i1 =>
    cases v2 with
    | none => simp [compare_images] at h
    | some i2 =>
      simp only [compare_images] at h ⊢
      by_cases hT : t < 0 ∨ 1 < t
      · rw [if_pos hT] at h
        exact Except.noConfusion h
      rw [if_neg hT] at h
      rw [if_neg hT]
      by_cases h1 : (convertRGB i1).width < minImageSize.1 ∨
          (convertRGB i1).height < minImageSize.2
      · rw [if_pos h1] at h
        exact Except.noConfusion h
      rw [if_neg h1] at h
      by_cases h2 : (convertRGB i2).width < minImageSize.1 ∨
          (convertRGB i2).height < minImageSize.2
      · rw [if_pos h2] at h
        exact Except.noConfusion h
      rw [if_neg h2] at h
      rw [if_neg h2, if_neg h1]
      by_cases ht : (targetSize (convertRGB i1) (convertRGB i2)).1 <
          minImageSize.1 ∨
          (targetSize (convertRGB i1) (convertRGB i2)).2 < minImageSize.2
      · rw [if_pos ht] at h
        exact Except.noConfusion h
      rw [if_neg ht] at h
      have e1 : (targetSize (convertRGB i2) (convertRGB i1)).1 =
          (targetSize (convertRGB i1) (convertRGB i2)).1 := by
        simp [targetSize, Nat.min_comm]
      have e2 : (targetSize (convertRGB i2) (convertRGB i1)).2 =
          (targetSize (convertRGB i1) (convertRGB i2)).2 := by
        simp [targetSize, Nat.min_comm]
      have htswap : ¬((targetSize (convertRGB i2) (convertRGB i1)).1 <
          minImageSize.1 ∨
          (targetSize (convertRGB i2) (convertRGB i1)).2 < minImageSize.2) := by
        rw [e1, e2]
        exact ht
      rw [if_neg htswap, e1, e2, ssimScore_comm]
      exact h

/-- C10 witness: a concrete successful asymmetric comparison (32×32 vs
48×32 uniform images) and its swapped run, both scoring 1. -/
theorem compare_symmetric_on_success_witness :
    compare_images nearestResize (some (uniformImg 32 32 cZero))
      (some (uniformImg 48 32 cZero)) (98 / 100) = Except.ok 1 ∧
    compare_images nearestResize (some (uniformImg 48 32 cZero))
      (some (uniformImg 32 32 cZero)) (98 / 100) = Except.ok 1 :=
  ⟨compareEval2,
    compare_symmetric_on_success nearestResize _ _ _ _ compareEval2⟩

/-- C9: `properties` reports intensity statistics (mean, variance of the
reported std, min, max) exactly when the image's mode is RGB or
single-channel `L`, always reports dimensions, mode, format and the EXIF
flag on success, and on any internal failure returns a dictionary holding
only the error field — never a mix of valid fields and an error. -/
theorem properties_stats_presence (v : Option RasterImage) :
    ((analyze_image_properties v).error ≠ none →
      (analyze_image_properties v).dimensions = none ∧
      (analyze_image_properties v).mode = none ∧
      (analyze_image_properties v).fmt = none ∧
      (analyze_image_properties v).has_exif = none ∧
      (analyze_image_properties v).mean_intensity = none ∧
      (analyze_image_properties v).var_intensity = none ∧
      (analyze_image_properties v).min_intensity = none ∧
      (analyze_image_properties v).max_intensity = none) ∧
    (∀ img, v = some img → (analyze_image_properties v).error = none →
      (analyze_image_properties v).dimensions = some (img.width, img.height) ∧
      (analyze_image_properties v).mode = some img.mode ∧
      (analyze_image_properties v).fmt = some img.fmt ∧
      (analyze_image_properties v).has_exif = some img.hasExif ∧
      ((analyze_image_properties v).mean_intensity.isSome = true ↔
        (img.mode = ImgMode.RGB ∨ img.mode = ImgMode.L)) ∧
      ((analyze_image_properties v).var_intensity.isSome = true ↔
        (img.mode = ImgMode.RGB ∨ img.mode = ImgMode.L)) ∧
      ((analyze_image_properties v).min_intensity.isSome = true ↔
        (img.mode = ImgMode.RGB ∨ img.mode = ImgMode.L)) ∧
      ((analyze_image_properties v).max_intensity.isSome = true ↔
        (img.mode = ImgMode.RGB ∨ img.mode = ImgMode.L))) := by
  cases v with
  | none =>
    constructor
    · intro _
      exact ⟨rfl, rfl, rfl, rfl, rfl, rfl, rfl, rfl⟩
    · intro img hv
      exact Option.noConfusion hv
  | some img =>
    by_cases hm : img.mode = ImgMode.RGB ∨ img.mode = ImgMode.L
    · cases hpx : pxVals img with
      | nil =>
        have hval : analyze_image_properties (some img) =
            errDict "zero-size array to reduction operation minimum" := by
          simp only [analyze_image_properties]
          rw [if_pos hm, hpx]
        rw [hval]
        constructor
        · intro _
          exact ⟨rfl, rfl, rfl, rfl, rfl, rfl, rfl, rfl⟩
        · intro img' hv herr
          exact absurd herr (by simp [errDict])
      | cons a rest =>
        have hd : (analyze_image_properties (some img)).dimensions =
            some (img.width, img.height) := by
          simp only [analyze_image_properties]
          rw [if_pos hm, hpx]
        have hmo : (analyze_image_properties (some img)).mode =
            some img.mode := by
          simp only [analyze_image_properties]
          rw [if_pos hm, hpx]
        have hf : (analyze_image_properties (some img)).fmt =
            some img.fmt := by
          simp only [analyze_image_properties]
          rw [if_pos hm, hpx]
        have hx : (analyze_image_properties (some img)).has_exif =
            some img.hasExif := by
          simp only [analyze_image_properties]
          rw [if_pos hm, hpx]
        have he : (analyze_image_properties (some img)).error = none := by
          simp only [analyze_image_properties]
          rw [if_pos hm, hpx]
        have h1 : (analyze_image_properties (some img)).mean_intensity.isSome
            = true := by
          simp only [analyze_image_properties]
          rw [if_pos hm, hpx]
          rfl
        have h2 : (analyze_image_properties (some img)).var_intensity.isSome
            = true := by
          simp only [analyze_image_properties]
          rw [if_pos hm, hpx]
          rfl
        have h3 : (analyze_image_properties (some img)).min_intensity.isSome
            = true := by
          simp only [analyze_image_properties]
          rw [if_pos hm, hpx]
          rfl
        have h4 : (analyze_image_properties (some img)).max_intensity.isSome
            = true := by
          simp only [analyze_image_properties]
          rw [if_pos hm, hpx]
          rfl
        constructor
        · intro herr
          exact absurd he herr
        · intro img' hv _
          have himg : img' = img := (Option.some.inj hv).symm
          subst himg
          exact ⟨hd, hmo, hf, hx, iff_of_true h1 hm, iff_of_true h2 hm,
            iff_of_true h3 hm, iff_of_true h4 hm⟩
    · have hd : (analyze_image_properties (some img)).dimensions =
          some (img.width, img.height) := by
        simp only [analyze_image_properties]
        rw [if_neg hm]
      have hmo : (analyze_image_properties (some img)).mode =
          some img.mode := by
        simp only [analyze_image_properties]
        rw [if_neg hm]
      have hf : (analyze_image_properties (some img)).fmt = some img.fmt := by
        simp only [analyze_image_properties]
        rw [if_neg hm]
      have hx : (analyze_image_properties (some img)).has_exif =
          some img.hasExif := by
        simp only [analyze_image_properties]
        rw [if_neg hm]
      have he : (analyze_image_properties (some img)).error = none := by
        simp only [analyze_image_properties]
        rw [if_neg hm]
      have h1 : (analyze_image_properties (some img)).mean_intensity.isSome
          = false := by
        simp only [analyze_image_properties]
        rw [if_neg hm]
        rfl
      have h2 : (analyze_image_properties (some img)).var_intensity.isSome
          = false := by
        simp only [analyze_image_properties]
        rw [if_neg hm]
        rfl
      have h3 : (analyze_image_properties (some img)).min_intensity.isSome
          = false := by
        simp only [analyze_image_properties]
        rw [if_neg hm]
        rfl
      have h4 : (analyze_image_properties (some img)).max_intensity.isSome
          = false := by
        simp only [analyze_image_properties]
        rw [if_neg hm]
        rfl
      constructor
      · intro herr
        exact absurd he herr
      · intro img' hv _
        have himg : img' = img := (Option.some.inj hv).symm
        subst himg
        refine ⟨hd, hmo, hf, hx, ?_, ?_, ?_, ?_⟩
        · rw [h1]; exact iff_of_false (by simp) hm
        · rw [h2]; exact iff_of_false (by simp) hm
        · rw [h3]; exact iff_of_false (by simp) hm
        · rw [h4]; exact iff_of_false (by simp) hm


/-- C9 witness: a concrete 2×2 RGB image analyzed successfully with
statistics present. -/
theorem properties_stats_presence_witness :
    (analyze_image_properties (some (uniformImg 2 2 cZero))).error = none ∧
    (analyze_image_properties (some (uniformImg 2 2 cZero))).mean_intensity.isSome
      = true := by
  have herr : (analyze_image_properties (some (uniformImg 2 2 cZero))).error
      = none := rfl
  refine ⟨herr, ?_⟩
  have h := (properties_stats_presence (some (uniformImg 2 2 cZero))).2
    (uniformImg 2 2 cZero) rfl herr
  exact h.2.2.2.2.1.mpr (Or.inl rfl)

end FakeImg
